import Mathlib

/-!
# Verification of the `eimg` credential-vault component

Shallow embedding of the security-relevant code of `main.py`
(`SecurityManager`, and the credential-handling methods of
`EarthImageDownloader`), with theorems settling the specification's
claims about it.

Bytes are `Nat` values below 256; byte strings are `List Nat`.
-/

namespace Eimg

/-- A 32-bit truncation, `x % 2^32`. -/
def w32 (x : Nat) : Nat := x % 4294967296

/-- Right rotation of a 32-bit word. -/
def rotr32 (n x : Nat) : Nat := w32 ((x >>> n) ||| (x <<< (32 - n)))

/-- UTF-8 encoding of a single character (its code point), per the
standard 1–4 byte scheme.  This mirrors Python's `str.encode()`. -/
def utf8EncodeChar (c : Char) : List Nat :=
  let v := c.toNat
  if v < 128 then [v]
  else if v < 2048 then
    [192 ||| (v >>> 6), 128 ||| (v &&& 63)]
  else if v < 65536 then
    [224 ||| (v >>> 12), 128 ||| ((v >>> 6) &&& 63), 128 ||| (v &&& 63)]
  else
    [240 ||| (v >>> 18), 128 ||| ((v >>> 12) &&& 63),
     128 ||| ((v >>> 6) &&& 63), 128 ||| (v &&& 63)]

/-- UTF-8 bytes of a string: Python's `s.encode()`. -/
def utf8Bytes (s : String) : List Nat :=
  (s.data.map utf8EncodeChar).flatten

/-! ## SHA-256 (FIPS 180-4), as used by Python's `hashlib.sha256` -/

/-- The 64 SHA-256 round constants (in decimal). -/
def sha256K : Array Nat := #[
  1116352408, 1899447441, 3049323471, 3921009573, 961987163, 1508970993,
  2453635748, 2870763221, 3624381080, 310598401, 607225278, 1426881987,
  1925078388, 2162078206, 2614888103, 3248222580, 3835390401, 4022224774,
  264347078, 604807628, 770255983, 1249150122, 1555081692, 1996064986,
  2554220882, 2821834349, 2952996808, 3210313671, 3336571891, 3584528711,
  113926993, 338241895, 666307205, 773529912, 1294757372, 1396182291,
  1695183700, 1986661051, 2177026350, 2456956037, 2730485921, 2820302411,
  3259730800, 3345764771, 3516065817, 3600352804, 4094571909, 275423344,
  430227734, 506948616, 659060556, 883997877, 958139571, 1322822218,
  1537002063, 1747873779, 1955562222, 2024104815, 2227730452, 2361852424,
  2428436474, 2756734187, 3204031479, 3329325298]

/-- Group a byte list into big-endian 32-bit words. -/
def toWordsBE : List Nat → List Nat
  | b0 :: b1 :: b2 :: b3 :: rest =>
      (b0 * 16777216 + b1 * 65536 + b2 * 256 + b3) :: toWordsBE rest
  | _ => []

/-- SHA-256 message padding: append `0x80`, zero bytes, and the 64-bit
big-endian bit length, to a multiple of 64 bytes. -/
def sha256Pad (msg : List Nat) : List Nat :=
  let len := msg.length
  let bitLen := 8 * len
  let zeros := (119 - len % 64) % 64
  msg ++ [128] ++ List.replicate zeros 0 ++
    [w32 (bitLen >>> 56) % 256, (bitLen >>> 48) % 256, (bitLen >>> 40) % 256,
     (bitLen >>> 32) % 256, (bitLen >>> 24) % 256, (bitLen >>> 16) % 256,
     (bitLen >>> 8) % 256, bitLen % 256]

/-- Split a byte list into 64-byte chunks (fuel-based structural recursion,
so that the kernel can evaluate it). -/
def chunks64Aux : Nat → List Nat → List (List Nat)
  | 0, _ => []
  | _, [] => []
  | fuel + 1, l => l.take 64 :: chunks64Aux fuel (l.drop 64)

/-- Split a byte list into 64-byte chunks. -/
def chunks64 (l : List Nat) : List (List Nat) := chunks64Aux l.length l

def smallSigma0 (x : Nat) : Nat := (rotr32 7 x) ^^^ (rotr32 18 x) ^^^ (x >>> 3)
def smallSigma1 (x : Nat) : Nat := (rotr32 17 x) ^^^ (rotr32 19 x) ^^^ (x >>> 10)
def bigSigma0 (x : Nat) : Nat := (rotr32 2 x) ^^^ (rotr32 13 x) ^^^ (rotr32 22 x)
def bigSigma1 (x : Nat) : Nat := (rotr32 6 x) ^^^ (rotr32 11 x) ^^^ (rotr32 25 x)

/-- Extend the 16-word message block to the 64-word schedule. -/
def extendSchedule (ws : Array Nat) : Nat → Array Nat
  | 0 => ws
  | fuel + 1 =>
      let i := ws.size
      let word := w32 (smallSigma1 (ws.getD (i - 2) 0) + ws.getD (i - 7) 0 +
        smallSigma0 (ws.getD (i - 15) 0) + ws.getD (i - 16) 0)
      extendSchedule (ws.push word) fuel

/-- One round of the SHA-256 compression function. -/
def sha256Round (w : Array Nat) (st : Nat × Nat × Nat × Nat × Nat × Nat × Nat × Nat)
    (i : Nat) : Nat × Nat × Nat × Nat × Nat × Nat × Nat × Nat :=
  let (a, b, c, d, e, f, g, h) := st
  let ch := (e &&& f) ^^^ ((e ^^^ 4294967295) &&& g)
  let t1 := w32 (h + bigSigma1 e + ch + sha256K.getD i 0 + w.getD i 0)
  let maj := (a &&& b) ^^^ (a &&& c) ^^^ (b &&& c)
  let t2 := w32 (bigSigma0 a + maj)
  (w32 (t1 + t2), a, b, c, w32 (d + t1), e, f, g)

/-- Compress one 64-byte chunk into the running hash state. -/
def sha256Compress (hv : List Nat) (chunk : List Nat) : List Nat :=
  let w := extendSchedule (toWordsBE chunk).toArray 48
  match hv with
  | [h0, h1, h2, h3, h4, h5, h6, h7] =>
      let (a, b, c, d, e, f, g, h) :=
        (List.range 64).foldl (sha256Round w) (h0, h1, h2, h3, h4, h5, h6, h7)
      [w32 (h0 + a), w32 (h1 + b), w32 (h2 + c), w32 (h3 + d),
       w32 (h4 + e), w32 (h5 + f), w32 (h6 + g), w32 (h7 + h)]
  | _ => hv

/-- SHA-256 digest of a byte string, as 32 bytes. -/
def sha256Bytes (msg : List Nat) : List Nat :=
  let init : List Nat := [1779033703, 3144134277, 1013904242, 2773480762,
    1359893119, 2600822924, 528734635, 1541459225]
  let final := (chunks64 (sha256Pad msg)).foldl sha256Compress init
  (final.map fun wd =>
    [(wd >>> 24) % 256, (wd >>> 16) % 256, (wd >>> 8) % 256, wd % 256]).flatten

/-- Lowercase hex digit. -/
def hexDigit (n : Nat) : Char :=
  if n < 10 then Char.ofNat (48 + n) else Char.ofNat (87 + n)

/-- Lowercase hex string of a byte list: Python's `.hexdigest()` output form. -/
def bytesToHex (bs : List Nat) : String :=
  ⟨(bs.map fun b => [hexDigit (b / 16), hexDigit (b % 16)]).flatten⟩

/-- Hex SHA-256 digest of a byte string. -/
def sha256Hex (msg : List Nat) : String := bytesToHex (sha256Bytes msg)

/-! ## Python string primitives used by `main.py` -/

/-- ASCII whitespace, as removed by Python's `str.strip()` (the development
restricts strings to ASCII data, which is all the program and its tests use). -/
def isPySpace (c : Char) : Bool :=
  c = ' ' || c = '\t' || c = '\n' || c = '\r' || c = '\x0b' || c = '\x0c'

/-- Python's `str.strip()`: drop whitespace from both ends. -/
def pyStrip (s : String) : String :=
  ⟨((s.data.dropWhile isPySpace).reverse.dropWhile isPySpace).reverse⟩

/-- Python's `str.isalnum()` on ASCII data: true iff the string is non-empty
and every character is a letter or digit. -/
def pyIsAlnum (s : String) : Bool :=
  s ≠ "" && s.data.all fun c => c.isAlphanum

/-- Python's `s.replace(c, '')`: remove every occurrence of one character. -/
def removeChar (c : Char) (s : String) : String :=
  ⟨s.data.filter fun a => a != c⟩

/-! ## `SecurityManager` -/

/-- `SecurityManager.__init__` records whether the `cryptography` library
imported successfully (the module flag `CRYPTO_AVAILABLE`). -/
structure SecurityManager where
  crypto_available : Bool
deriving DecidableEq

/-- The fixed salt `b'eimg_salt_2025_stasx'` assigned in
`SecurityManager.__init__`. -/
def eimgSalt : List Nat := utf8Bytes "eimg_salt_2025_stasx"

/-- Symbolic model of the key produced by the external library call
`PBKDF2HMAC(algorithm=SHA256(), length=32, salt=self.salt, iterations=100000)`
followed by `base64.urlsafe_b64encode`.  The library's derivation is pure and
deterministic; it is abstracted here as an opaque value determined injectively
by the passphrase and the derivation parameters (constructor injectivity
standing for the collision resistance of PBKDF2-HMAC-SHA256). -/
structure DerivedKey where
  passphrase : String
  salt : List Nat
  iterations : Nat
  keyLength : Nat
deriving DecidableEq

/-- `SecurityManager._generate_key`: fails when the cryptography library is
unavailable, otherwise derives the key from the password with the fixed salt,
100000 iterations and a 32-byte output length. -/
def SecurityManager.generate_key (sm : SecurityManager) (password : String) :
    Option DerivedKey :=
  if sm.crypto_available then some ⟨password, eimgSalt, 100000, 32⟩ else none

/-- Symbolic model of a stored ciphertext string.  A `token` is a genuine
Fernet token: the external `Fernet(key).encrypt` authenticated-encrypts the
plaintext under the key with a fresh random IV, and the result (after the
program's extra `base64.urlsafe_b64encode`) determines and is determined by
the triple recorded here.  `garbage` is any stored string that is not a
well-formed authenticated token (in particular anything produced by flipping
bytes of a token, which breaks its HMAC). -/
inductive Ciphertext where
  | token (key : DerivedKey) (iv : Nat) (plaintext : String)
  | garbage (bytes : List Nat)
deriving DecidableEq

/-- Symbolic `Fernet(key).decrypt` followed by `.decode()`: authenticated
decryption succeeds exactly on genuine tokens built under the same key; on
anything else the library raises, which the caller turns into `None`. -/
def fernetDecrypt (key : DerivedKey) : Ciphertext → Option String
  | .token k _ pt => if k = key then some pt else none
  | .garbage _ => none

/-- `SecurityManager.encrypt_data`.  The fresh IV drawn inside the external
`Fernet.encrypt` is made an explicit argument `iv`, so the per-call randomness
is visible in the model. -/
def SecurityManager.encrypt_data (sm : SecurityManager) (data password : String)
    (iv : Nat) : Option Ciphertext :=
  if !sm.crypto_available then none
  else if data = "" || password = "" then none
  else match sm.generate_key password with
    | none => none
    | some key => some (.token key iv data)

/-- `SecurityManager.decrypt_data`.  The `if not encrypted_data` guard of the
source rejects the empty stored string, i.e. `garbage []`. -/
def SecurityManager.decrypt_data (sm : SecurityManager)
    (encrypted_data : Ciphertext) (password : String) : Option String :=
  if !sm.crypto_available then none
  else if encrypted_data = .garbage [] || password = "" then none
  else match sm.generate_key password with
    | none => none
    | some key => fernetDecrypt key encrypted_data

/-- `SecurityManager.hash_string`: `None` on falsy input, otherwise the hex
SHA-256 digest of the UTF-8 encoding (`hashlib.sha256(data.encode()).hexdigest()`). -/
def SecurityManager.hash_string (data : String) : Option String :=
  if data = "" then none
  else some (sha256Hex (utf8Bytes data))

/-- `SecurityManager.validate_api_key_format`: rejects falsy input, requires
the whitespace-stripped key to be at least 20 characters, then requires the
key with `-` and `_` removed to satisfy `str.isalnum()`. -/
def SecurityManager.validate_api_key_format (api_key : String) : Bool :=
  if api_key = "" then false
  else if (pyStrip api_key).length < 20 then false
  else pyIsAlnum (removeChar '_' (removeChar '-' api_key))

/-- The Python call with a `None` argument: `if not api_key` rejects `None`
exactly as it rejects the empty string. -/
def validate_api_key_format_opt : Option String → Bool
  | none => false
  | some s => SecurityManager.validate_api_key_format s

/-! ## `EarthImageDownloader` credential handling -/

/-- The credential-relevant entries of the JSON config dict; `none` models
absence of the corresponding dict key. -/
structure Config where
  api_key : Option String := none
  encrypted_api_key : Option Ciphertext := none
  key_hash : Option String := none
  encryption_version : Option String := none
deriving DecidableEq

/-- `EarthImageDownloader.set_api_key`.  The interactive master-password
prompt result is passed as `master_password` (`none` models a failed or
cancelled prompt); the fresh Fernet IV as `iv`.  `save_config` (pure file
I/O) is modelled as succeeding.  Returns the Python return value together
with the updated config. -/
def set_api_key (sm : SecurityManager) (cfg : Config) (api_key : String)
    (master_password : Option String) (iv : Nat) : Bool × Config :=
  if !SecurityManager.validate_api_key_format api_key then (false, cfg)
  else if !sm.crypto_available then
    (true, { cfg with api_key := some (pyStrip api_key) })
  else match master_password with
    | none => (false, cfg)
    | some pw =>
      match sm.encrypt_data (pyStrip api_key) pw iv with
      | none => (false, cfg)
      | some ct =>
        (true, { cfg with
          encrypted_api_key := some ct,
          key_hash := SecurityManager.hash_string (pyStrip api_key),
          encryption_version := some "1.0",
          api_key := none })

/-- `EarthImageDownloader.get_api_key`.  Every failure path returns `''`,
as the source does. -/
def get_api_key (sm : SecurityManager) (cfg : Config)
    (master_password : Option String) : String :=
  if cfg.api_key.isSome && cfg.encrypted_api_key.isNone then
    cfg.api_key.getD ""
  else match cfg.encrypted_api_key with
  | none => ""
  | some ct =>
    if !sm.crypto_available then ""
    else match master_password with
      | none => ""
      | some pw =>
        match sm.decrypt_data ct pw with
        | none => ""
        | some dk =>
          if dk = "" then ""
          else if SecurityManager.hash_string dk = cfg.key_hash then dk
          else ""

/-! ## Sanity check of the SHA-256 embedding -/

set_option maxRecDepth 100000 in
/-- FIPS 180-4 test vector: the embedding of `hashlib.sha256` computes the
standard digest of `"abc"`. -/
theorem sha256_test_vector_abc : sha256Hex (utf8Bytes "abc") =
    "ba7816bf8f01cfea414140de5dae2223b00361a396177a9cb410ff61f20015ad" := by decide

/-! ## Claims -/

/-- C1: for every non-empty plaintext `P` and non-empty passphrase `K`,
decrypting `encrypt_data P K` with the same passphrase `K` returns exactly
`P` (whatever fresh IV the encryption drew). -/
theorem encrypt_decrypt_roundtrip (sm : SecurityManager) (P K : String)
    (iv : Nat) (hc : sm.crypto_available = true) (hP : P ≠ "") (hK : K ≠ "") :
    (sm.encrypt_data P K iv).bind (fun c => sm.decrypt_data c K) = some P := by
  simp [SecurityManager.encrypt_data, SecurityManager.decrypt_data,
    SecurityManager.generate_key, fernetDecrypt, hc, hP, hK]

/-- Witness for C1 at concrete inputs. -/
theorem encrypt_decrypt_roundtrip_witness :
    (SecurityManager.mk true).crypto_available = true ∧
    ("myNASAapiKey123456789" : String) ≠ "" ∧ ("hunter22" : String) ≠ "" ∧
    ((SecurityManager.mk true).encrypt_data "myNASAapiKey123456789" "hunter22" 7).bind
      (fun c => (SecurityManager.mk true).decrypt_data c "hunter22") =
      some "myNASAapiKey123456789" :=
  ⟨rfl, by decide, by decide,
    encrypt_decrypt_roundtrip ⟨true⟩ "myNASAapiKey123456789" "hunter22" 7 rfl
      (by decide) (by decide)⟩

/-- C2: for every plaintext `P` and distinct passphrases `K1 ≠ K2`,
decrypting `encrypt_data P K1` with `K2` yields no plaintext at all — the
composite returns `none` (a definite decryption-failed signal), for any
availability state and any IV. -/
theorem decrypt_wrong_passphrase_fails (sm : SecurityManager) (P K1 K2 : String)
    (iv : Nat) (hne : K1 ≠ K2) :
    (sm.encrypt_data P K1 iv).bind (fun c => sm.decrypt_data c K2) = none := by
  by_cases hc : sm.crypto_available
  · by_cases hP : P = ""
    · simp [SecurityManager.encrypt_data, hP]
    · by_cases hK1 : K1 = ""
      · simp [SecurityManager.encrypt_data, hK1]
      · by_cases hK2 : K2 = ""
        · simp [SecurityManager.encrypt_data, SecurityManager.decrypt_data,
            SecurityManager.generate_key, hc, hP, hK1, hK2]
        · simp [SecurityManager.encrypt_data, SecurityManager.decrypt_data,
            SecurityManager.generate_key, fernetDecrypt, hc, hP, hK1, hK2]
          intro h
          exact absurd h hne
  · simp [SecurityManager.encrypt_data, hc]

/-- Witness for C2 at concrete inputs. -/
theorem decrypt_wrong_passphrase_fails_witness :
    ("hunter22" : String) ≠ "wrong_password" ∧
    ((SecurityManager.mk true).encrypt_data "myNASAapiKey123456789" "hunter22" 7).bind
      (fun c => (SecurityManager.mk true).decrypt_data c "wrong_password") = none :=
  ⟨by decide,
    decrypt_wrong_passphrase_fails ⟨true⟩ "myNASAapiKey123456789" "hunter22"
      "wrong_password" 7 (by decide)⟩

/-- C7: encryption is non-deterministic across calls — two `encrypt_data`
calls on the same plaintext and passphrase that draw different fresh IVs
produce different ciphertexts. -/
theorem encrypt_data_nondeterministic (sm : SecurityManager) (P K : String)
    (iv1 iv2 : Nat) (hc : sm.crypto_available = true) (hP : P ≠ "")
    (hK : K ≠ "") (hiv : iv1 ≠ iv2) :
    sm.encrypt_data P K iv1 ≠ sm.encrypt_data P K iv2 := by
  simp [SecurityManager.encrypt_data, SecurityManager.generate_key,
    hc, hP, hK, Ciphertext.token.injEq]
  intro h
  exact absurd h hiv

/-- Witness for C7 at concrete inputs. -/
theorem encrypt_data_nondeterministic_witness :
    (0 : Nat) ≠ 1 ∧
    (SecurityManager.mk true).encrypt_data "myNASAapiKey123456789" "hunter22" 0 ≠
      (SecurityManager.mk true).encrypt_data "myNASAapiKey123456789" "hunter22" 1 :=
  ⟨by decide,
    encrypt_data_nondeterministic ⟨true⟩ "myNASAapiKey123456789" "hunter22" 0 1 rfl
      (by decide) (by decide) (by decide)⟩

/-- C8: key derivation is deterministic in the passphrase and uses the fixed
parameters transcribed from the source — the salt `b'eimg_salt_2025_stasx'`,
100000 iterations, and a 32-byte output — and distinct passphrases yield
distinct keys. -/
theorem generate_key_fixed_parameters (p : String) :
    SecurityManager.generate_key ⟨true⟩ p = some ⟨p, eimgSalt, 100000, 32⟩ ∧
    eimgSalt = utf8Bytes "eimg_salt_2025_stasx" ∧
    (∀ q : String, SecurityManager.generate_key ⟨true⟩ p =
      SecurityManager.generate_key ⟨true⟩ q → p = q) := by
  refine ⟨rfl, rfl, fun q h => ?_⟩
  simpa [SecurityManager.generate_key, DerivedKey.mk.injEq] using h

/-- The format predicate exactly as the claim words it: non-empty, not
whitespace-only, at least 20 characters **after** stripping `-`/`_`, and the
cleaned form alphanumeric. -/
def claimValidFormat (c : String) : Bool :=
  c ≠ "" && pyStrip c ≠ "" &&
  20 ≤ (removeChar '_' (removeChar '-' c)).length &&
  pyIsAlnum (removeChar '_' (removeChar '-' c))

/-- C5 counterexample: the source applies the 20-character minimum to the
whitespace-stripped key *before* removing `-`/`_`, not after.  A 20-character
key holding six dashes is accepted by the code although its cleaned form has
only 14 characters, so the claim's iff fails at this input. -/
theorem validate_format_threshold_counterexample :
    SecurityManager.validate_api_key_format "ab-cd-ef-gh-ij-kl-mn" = true ∧
    claimValidFormat "ab-cd-ef-gh-ij-kl-mn" = false := by decide

/-- C5 amended: `validate_api_key_format c` is true iff the
whitespace-stripped `c` has at least 20 characters (threshold applied before
`-`/`_` removal) and `c` with `-`/`_` removed is non-empty and alphanumeric;
in particular it is false at `""`, `"short"` and a `None` argument, and true
at `"abcdefghijklmnopqrstuvwxyz1234567890"`. -/
theorem validate_format_characterization :
    (∀ c : String, SecurityManager.validate_api_key_format c = true ↔
      (20 ≤ (pyStrip c).length ∧
        pyIsAlnum (removeChar '_' (removeChar '-' c)) = true)) ∧
    validate_api_key_format_opt none = false ∧
    SecurityManager.validate_api_key_format "" = false ∧
    SecurityManager.validate_api_key_format "short" = false ∧
    SecurityManager.validate_api_key_format
      "abcdefghijklmnopqrstuvwxyz1234567890" = true := by
  refine ⟨fun c => ?_, rfl, by decide, by decide, by decide⟩
  by_cases h : c = ""
  · subst h; decide
  · by_cases hl : (pyStrip c).length < 20
    · simp [SecurityManager.validate_api_key_format, h, hl]
    · simp [SecurityManager.validate_api_key_format, h, hl]
      omega

/-- C6 counterexample: at the empty string, `hash_string` returns `None`
rather than the hex SHA-256 digest of the empty UTF-8 byte string, so the
claim's "for every string" fails at `""`. -/
theorem hash_string_empty_counterexample :
    SecurityManager.hash_string "" ≠ some (sha256Hex (utf8Bytes "")) := by
  simp [SecurityManager.hash_string]

set_option maxRecDepth 1000000 in
/-- C6 amended: for every non-empty string, `hash_string` returns the hex
SHA-256 digest of its UTF-8 encoding (empty input returns `None`); it is
deterministic, and the two strings of the repository's test corpus hash to
different digests. -/
theorem hash_string_sha256_characterization :
    (∀ X : String, X ≠ "" →
      SecurityManager.hash_string X = some (sha256Hex (utf8Bytes X))) ∧
    (∀ X : String, SecurityManager.hash_string X = SecurityManager.hash_string X) ∧
    SecurityManager.hash_string "test_api_key_12345" ≠
      SecurityManager.hash_string "different_data" := by
  refine ⟨fun X hX => by simp [SecurityManager.hash_string, hX],
    fun X => rfl, by decide⟩

/-- Witness for C6's amended theorem at a concrete input. -/
theorem hash_string_sha256_characterization_witness :
    ("abc" : String) ≠ "" ∧
    SecurityManager.hash_string "abc" = some (sha256Hex (utf8Bytes "abc")) :=
  ⟨by decide, hash_string_sha256_characterization.1 "abc" (by decide)⟩

/-- C3 counterexample: with the cryptography library unavailable,
`set_api_key` does not refuse to store the plaintext — on a format-valid key
it reports success and stores the key in plain text under
`config['api_key']`, with no separate opt-in by the caller. -/
theorem set_api_key_plaintext_fallback_counterexample :
    set_api_key ⟨false⟩ {} "abcdefghijklmnopqrstuvwxyz1234567890" none 0 =
      (true, { api_key := some "abcdefghijklmnopqrstuvwxyz1234567890" }) := by
  decide

/-- C3 amended: when the cryptographic primitives are unavailable,
`encrypt_data` and `decrypt_data` do fail closed (return `None`), but the
set-credential operation does not: `set_api_key` falls back automatically to
storing the stripped plaintext key under `config['api_key']` and reports
success, the only label being a printed warning. -/
theorem crypto_unavailable_fail_closed_amended (sm : SecurityManager)
    (cfg : Config) (data password k : String) (mpw : Option String)
    (iv : Nat) (ct : Ciphertext) (hc : sm.crypto_available = false) :
    sm.encrypt_data data password iv = none ∧
    sm.decrypt_data ct password = none ∧
    (SecurityManager.validate_api_key_format k = true →
      set_api_key sm cfg k mpw iv =
        (true, { cfg with api_key := some (pyStrip k) })) := by
  refine ⟨by simp [SecurityManager.encrypt_data, hc],
    by simp [SecurityManager.decrypt_data, hc], fun hv => ?_⟩
  simp [set_api_key, hv, hc]

/-- Witness for C3's amended theorem at concrete inputs. -/
theorem crypto_unavailable_fail_closed_witness :
    (SecurityManager.mk false).crypto_available = false ∧
    ((SecurityManager.mk false).encrypt_data "secret" "pw" 0 = none ∧
     (SecurityManager.mk false).decrypt_data (Ciphertext.garbage [1]) "pw" = none ∧
     (SecurityManager.validate_api_key_format
        "abcdefghijklmnopqrstuvwxyz1234567890" = true →
       set_api_key ⟨false⟩ {} "abcdefghijklmnopqrstuvwxyz1234567890" none 0 =
         (true,
           { api_key := some (pyStrip "abcdefghijklmnopqrstuvwxyz1234567890") }))) :=
  ⟨rfl, crypto_unavailable_fail_closed_amended ⟨false⟩ {} "secret" "pw"
    "abcdefghijklmnopqrstuvwxyz1234567890" none 0 (.garbage [1]) rfl⟩

/-- A key that passes the format check has a non-empty stripped form
(its stripped length is at least 20). -/
theorem validate_strip_ne_empty (k : String)
    (h : SecurityManager.validate_api_key_format k = true) : pyStrip k ≠ "" := by
  intro he
  unfold SecurityManager.validate_api_key_format at h
  rw [he] at h
  by_cases hk : k = "" <;> simp [hk] at h

/-- Decrypting a stored string that is not a genuine token fails. -/
theorem decrypt_data_garbage (sm : SecurityManager) (bs : List Nat)
    (pw : String) : sm.decrypt_data (.garbage bs) pw = none := by
  by_cases hc : sm.crypto_available <;>
    simp [SecurityManager.decrypt_data, SecurityManager.generate_key, hc,
      fernetDecrypt]

/-- C4: whenever authenticated decryption of the stored ciphertext succeeds
but the recomputed plaintext hash differs from the stored `key_hash`,
`get_api_key` discards the plaintext and returns the empty string. -/
theorem get_api_key_integrity_mismatch_fails (sm : SecurityManager)
    (cfg : Config) (ct : Ciphertext) (pw dk : String)
    (hct : cfg.encrypted_api_key = some ct)
    (hdec : sm.decrypt_data ct pw = some dk)
    (hmis : SecurityManager.hash_string dk ≠ cfg.key_hash) :
    get_api_key sm cfg (some pw) = "" := by
  have hc : sm.crypto_available = true := by
    rcases Bool.eq_false_or_eq_true sm.crypto_available with hb | hb
    · exact hb
    · simp [SecurityManager.decrypt_data, hb] at hdec
  by_cases hdk : dk = ""
  · simp [get_api_key, hct, hc, hdec, hdk]
  · simp [get_api_key, hct, hc, hdec, hdk, hmis]

/-- Witness for C4 at a concrete tampered config (stored `key_hash` absent,
so it cannot match the recomputed hash). -/
theorem get_api_key_integrity_mismatch_witness :
    (Config.mk none (some (Ciphertext.token ⟨"pw123", eimgSalt, 100000, 32⟩ 5
        "secret")) none none).encrypted_api_key =
      some (Ciphertext.token ⟨"pw123", eimgSalt, 100000, 32⟩ 5 "secret") ∧
    (SecurityManager.mk true).decrypt_data
      (Ciphertext.token ⟨"pw123", eimgSalt, 100000, 32⟩ 5 "secret") "pw123" =
      some "secret" ∧
    SecurityManager.hash_string "secret" ≠
      (Config.mk none (some (Ciphertext.token ⟨"pw123", eimgSalt, 100000, 32⟩ 5
        "secret")) none none).key_hash ∧
    get_api_key ⟨true⟩
      (Config.mk none (some (Ciphertext.token ⟨"pw123", eimgSalt, 100000, 32⟩ 5
        "secret")) none none) (some "pw123") = "" :=
  ⟨rfl, by decide, by simp [SecurityManager.hash_string],
    get_api_key_integrity_mismatch_fails ⟨true⟩
      (Config.mk none (some (Ciphertext.token ⟨"pw123", eimgSalt, 100000, 32⟩ 5
        "secret")) none none)
      (Ciphertext.token ⟨"pw123", eimgSalt, 100000, 32⟩ 5 "secret")
      "pw123" "secret" rfl (by decide) (by simp [SecurityManager.hash_string])⟩

/-- C9: starting from a genuine record written by `set_api_key` under
passphrase `K`, (a) replacing the stored ciphertext by anything that does
not authenticate under `K`'s derived key — which is what flipping any byte
of a token produces, since it breaks the HMAC — makes `get_api_key` fail at
the cipher-authentication stage, and (b) even a same-key token whose
plaintext hash differs from the stored hash fails at the hash-integrity
stage; both return `''`, never an altered plaintext. -/
theorem tampered_record_never_returns_plaintext (P K : String) (iv iv2 : Nat)
    (c : Ciphertext) (pt : String)
    (hv : SecurityManager.validate_api_key_format P = true) (hK : K ≠ "")
    (hauth : ∀ k i q, c = Ciphertext.token k i q → k ≠ ⟨K, eimgSalt, 100000, 32⟩) :
    get_api_key ⟨true⟩
      { (set_api_key ⟨true⟩ {} P (some K) iv).2 with encrypted_api_key := some c }
      (some K) = "" ∧
    (SecurityManager.hash_string pt ≠ SecurityManager.hash_string (pyStrip P) →
      get_api_key ⟨true⟩
        { (set_api_key ⟨true⟩ {} P (some K) iv).2 with
          encrypted_api_key :=
            some (Ciphertext.token ⟨K, eimgSalt, 100000, 32⟩ iv2 pt) }
        (some K) = "") := by
  have hP' : pyStrip P ≠ "" := validate_strip_ne_empty P hv
  have hset : (set_api_key ⟨true⟩ {} P (some K) iv).2 =
      { api_key := none,
        encrypted_api_key :=
          some (Ciphertext.token ⟨K, eimgSalt, 100000, 32⟩ iv (pyStrip P)),
        key_hash := SecurityManager.hash_string (pyStrip P),
        encryption_version := some "1.0" } := by
    simp [set_api_key, SecurityManager.encrypt_data,
      SecurityManager.generate_key, hv, hP', hK]
  constructor
  · cases c with
    | garbage bs =>
        simp [get_api_key, hset, decrypt_data_garbage]
    | token k i q =>
        have hk := hauth k i q rfl
        simp [get_api_key, hset, SecurityManager.decrypt_data,
          SecurityManager.generate_key, fernetDecrypt, hK, hk]
  · intro hmis
    by_cases hpt : pt = ""
    · simp [get_api_key, hset, SecurityManager.decrypt_data,
        SecurityManager.generate_key, fernetDecrypt, hK, hpt]
    · simp [get_api_key, hset, SecurityManager.decrypt_data,
        SecurityManager.generate_key, fernetDecrypt, hK, hpt, hmis]

/-- Witness for C9 at concrete inputs (the tampered ciphertext is a
non-token byte string). -/
theorem tampered_record_never_returns_plaintext_witness :
    SecurityManager.validate_api_key_format
      "abcdefghijklmnopqrstuvwxyz1234567890" = true ∧
    ("hunter22" : String) ≠ "" ∧
    (∀ k i q, Ciphertext.garbage [1, 2, 3] = Ciphertext.token k i q →
      k ≠ ⟨"hunter22", eimgSalt, 100000, 32⟩) ∧
    (get_api_key ⟨true⟩
      { (set_api_key ⟨true⟩ {} "abcdefghijklmnopqrstuvwxyz1234567890"
          (some "hunter22") 4).2 with
        encrypted_api_key := some (Ciphertext.garbage [1, 2, 3]) }
      (some "hunter22") = "" ∧
    (SecurityManager.hash_string "evilkey" ≠
        SecurityManager.hash_string
          (pyStrip "abcdefghijklmnopqrstuvwxyz1234567890") →
      get_api_key ⟨true⟩
        { (set_api_key ⟨true⟩ {} "abcdefghijklmnopqrstuvwxyz1234567890"
            (some "hunter22") 4).2 with
          encrypted_api_key :=
            some (Ciphertext.token ⟨"hunter22", eimgSalt, 100000, 32⟩ 9 "evilkey") }
        (some "hunter22") = "")) :=
  by
  have hauth : ∀ (k : DerivedKey) (i : Nat) (q : String),
      Ciphertext.garbage [1, 2, 3] = Ciphertext.token k i q →
      k ≠ ⟨"hunter22", eimgSalt, 100000, 32⟩ := by
    intro k i q h
    exact absurd h (by simp)
  refine ⟨by decide, by decide, hauth, ?_⟩
  exact tampered_record_never_returns_plaintext
    "abcdefghijklmnopqrstuvwxyz1234567890" "hunter22" 4 9
    (Ciphertext.garbage [1, 2, 3]) "evilkey" (by decide) (by decide) hauth

/-- C10: every successful `set_api_key` run with cryptography available
leaves the config holding `encrypted_api_key`, `key_hash` and
`encryption_version`, and with the plaintext `api_key` entry deleted. -/
theorem set_api_key_encrypted_config_invariant (sm : SecurityManager)
    (cfg : Config) (k : String) (mpw : Option String) (iv : Nat)
    (hc : sm.crypto_available = true)
    (hs : (set_api_key sm cfg k mpw iv).1 = true) :
    ((set_api_key sm cfg k mpw iv).2.encrypted_api_key).isSome = true ∧
    ((set_api_key sm cfg k mpw iv).2.key_hash).isSome = true ∧
    (set_api_key sm cfg k mpw iv).2.encryption_version = some "1.0" ∧
    (set_api_key sm cfg k mpw iv).2.api_key = none := by
  by_cases hv : SecurityManager.validate_api_key_format k
  · match mpw with
    | none => simp [set_api_key, hv, hc] at hs
    | some pw =>
      by_cases hpw : pw = ""
      · simp [set_api_key, SecurityManager.encrypt_data, hv, hc, hpw] at hs
      · have hP' : pyStrip k ≠ "" := validate_strip_ne_empty k hv
        simp [set_api_key, SecurityManager.encrypt_data,
          SecurityManager.generate_key, SecurityManager.hash_string,
          hv, hc, hpw, hP']
  · simp [set_api_key, hv] at hs

/-- Witness for C10 at concrete inputs. -/
theorem set_api_key_encrypted_config_invariant_witness :
    (SecurityManager.mk true).crypto_available = true ∧
    (set_api_key ⟨true⟩ {} "abcdefghijklmnopqrstuvwxyz1234567890"
      (some "hunter22") 3).1 = true ∧
    (((set_api_key ⟨true⟩ {} "abcdefghijklmnopqrstuvwxyz1234567890"
        (some "hunter22") 3).2.encrypted_api_key).isSome = true ∧
     ((set_api_key ⟨true⟩ {} "abcdefghijklmnopqrstuvwxyz1234567890"
        (some "hunter22") 3).2.key_hash).isSome = true ∧
     (set_api_key ⟨true⟩ {} "abcdefghijklmnopqrstuvwxyz1234567890"
        (some "hunter22") 3).2.encryption_version = some "1.0" ∧
     (set_api_key ⟨true⟩ {} "abcdefghijklmnopqrstuvwxyz1234567890"
        (some "hunter22") 3).2.api_key = none) :=
  ⟨rfl, by decide,
    set_api_key_encrypted_config_invariant ⟨true⟩ {}
      "abcdefghijklmnopqrstuvwxyz1234567890" (some "hunter22") 3 rfl (by decide)⟩

end Eimg
